import Mathlib

/-!
Verification of the inventariobvp transform-and-merge pipeline.

The definitions below are a shallow embedding of the Python/pandas code in
`invent2.py` and `src/core/transform.py` / `src/core/output.py`:

* table cells are modelled as strings (pandas reads the spreadsheet data as
  objects and all the relevant operations — `pd.to_numeric(errors="coerce")`,
  `astype(str)` — behave on numbers exactly as on their decimal rendering);
* `NaN`/`pd.NA` is modelled by `Option` (`none` = missing/NaN), with pandas'
  comparison semantics (`NaN != x` is `True`) written out explicitly where the
  code relies on it;
* float columns are modelled by `ℚ` (all the arithmetic at issue — sums,
  differences, division, clipping — is exact decimal arithmetic);
* dates are calendar dates `(year, month, day)`; `pd.DateOffset(months = n)`
  is month arithmetic with the day clamped to the target month's length;
* dataframes are lists of rows, `sort_values` is a sort by the given column,
  and `drop_duplicates(subset, keep = "last")` keeps, for every key, the last
  occurrence in the current row order.
-/

namespace InventarioBVP

set_option maxRecDepth 40000

/-! ## Python string and number primitives -/

/-- Python `str.strip()`: remove whitespace from both ends. -/
def pyStrip (s : String) : String :=
  ⟨((s.data.dropWhile Char.isWhitespace).reverse.dropWhile Char.isWhitespace).reverse⟩

/-- Value of a list of decimal digits. -/
def digitsToNat (cs : List Char) : ℕ :=
  cs.foldl (fun a c => 10 * a + (c.toNat - ('0').toNat)) 0

/-- Parse a decimal literal `[+-] digits [. digits]` as an exact rational.
This is the (decimal-literal fragment of the) numeric parser behind
`pd.to_numeric(errors="coerce")`; anything else fails, yielding `none`
(pandas' `NaN`). -/
def parseDecToQ (cs : List Char) : Option ℚ :=
  let sr : ℚ × List Char :=
    match cs with
    | '+' :: r => (1, r)
    | '-' :: r => (-1, r)
    | r => (1, r)
  let ip := sr.2.takeWhile Char.isDigit
  let rest := sr.2.dropWhile Char.isDigit
  match rest with
  | [] => if ip.isEmpty then none else some (sr.1 * digitsToNat ip)
  | '.' :: rest2 =>
      let fp := rest2.takeWhile Char.isDigit
      let rest3 := rest2.dropWhile Char.isDigit
      if rest3.isEmpty = false then none
      else if ip.isEmpty && fp.isEmpty then none
      else some (sr.1 * ((digitsToNat ip : ℚ) + (digitsToNat fp : ℚ) / (10 ^ fp.length)))
  | _ => none

/-- `pd.to_numeric(x, errors="coerce")` on one cell: `none` is `NaN`. -/
def pyToNumeric (s : String) : Option ℚ :=
  parseDecToQ (pyStrip s).data

/-- `pd.to_numeric(x, errors="coerce").fillna(0)` on one cell. -/
def toNum0 (s : String) : ℚ :=
  (pyToNumeric s).getD 0

/-- Round to the nearest integer, ties to even (numpy/pandas rounding). -/
def roundHalfEven (q : ℚ) : ℤ :=
  let f := ⌊q⌋
  let r := q - f
  if r < 1 / 2 then f
  else if 1 / 2 < r then f + 1
  else if f % 2 = 0 then f else f + 1

/-- `Series.round(2)` on one value. -/
def round2 (q : ℚ) : ℚ :=
  (roundHalfEven (q * 100) : ℚ) / 100

/-! ## Calendar dates -/

/-- A normalized (midnight) `pd.Timestamp`, i.e. a calendar date. -/
structure DayDate where
  y : ℕ
  m : ℕ
  d : ℕ
deriving DecidableEq

/-- Order-preserving injection of valid dates into `ℕ` (month < 16, day < 32),
used to compare timestamps. -/
def DayDate.num (a : DayDate) : ℕ :=
  a.y * 512 + a.m * 32 + a.d

/-- Timestamp comparison `a ≤ b` on dates. -/
def dateLe (a b : DayDate) : Prop :=
  a.num ≤ b.num

instance (a b : DayDate) : Decidable (dateLe a b) :=
  Nat.decLe a.num b.num

def isLeapYear (y : ℕ) : Bool :=
  (y % 4 == 0 && y % 100 != 0) || y % 400 == 0

def daysInMonth (y m : ℕ) : ℕ :=
  if m = 2 then (if isLeapYear y then 29 else 28)
  else if m = 4 ∨ m = 6 ∨ m = 9 ∨ m = 11 then 30
  else 31

/-- `date - pd.DateOffset(months = n)`: go back `n` months, clamping the day
to the length of the target month (e.g. 2024-02-29 minus 12 months is
2023-02-28). -/
def subMonths (dte : DayDate) (n : ℕ) : DayDate :=
  let t := dte.y * 12 + (dte.m - 1)
  if n ≤ t then
    let t2 := t - n
    let y2 := t2 / 12
    let m2 := t2 % 12 + 1
    ⟨y2, m2, min dte.d (daysInMonth y2 m2)⟩
  else ⟨0, 1, min dte.d 31⟩

/-! ## Rows and tables

`RawTable` models one spreadsheet table after `normalize_cols`: the Boolean
flags record which of the columns relevant to the pipeline are present after
normalization (`"qtd_erp" in df.columns`, ...), `extraCols` the names of any
further passthrough columns, and `rows` the data.  A missing column's cell
values are irrelevant, so `RawRow` always carries all fields. -/

structure RawRow where
  id : String
  item_id : String
  descricao : Option String
  status : Option String
  motivo : Option String
  qtd_erp : String
  qtd_wms : String
  qtd_dif : String
  valor_dif : String
deriving DecidableEq

structure RawTable where
  hasId : Bool
  hasItem : Bool
  hasDif : Bool
  hasValorDif : Bool
  hasStatus : Bool
  hasDescricao : Bool
  hasMotivo : Bool
  hasErp : Bool
  hasWms : Bool
  extraCols : List String
  rows : List RawRow
deriving DecidableEq

/-- `list(df.columns)` after normalization, as reported in the error detail. -/
def availableCols (t : RawTable) : List String :=
  (if t.hasId then ["id"] else []) ++
  (if t.hasItem then ["item_id"] else []) ++
  (if t.hasDescricao then ["descricao"] else []) ++
  (if t.hasStatus then ["status"] else []) ++
  (if t.hasErp then ["qtd_erp"] else []) ++
  (if t.hasWms then ["qtd_wms"] else []) ++
  (if t.hasDif then ["qtd_dif"] else []) ++
  (if t.hasValorDif then ["valor_dif"] else []) ++
  (if t.hasMotivo then ["motivo"] else []) ++
  t.extraCols

/-- A canonical record as projected by `transform` (the `cols_final` list in
`invent2.py`; note `flag_inconsistencia` is not among the projected columns). -/
structure InvRow where
  dt_inventario : DayDate
  id : Option String
  item_id : Option String
  descricao : Option String
  status : Option String
  qtd_erp : ℚ
  qtd_wms : ℚ
  qtd_dif : ℚ
  valor_dif : Option ℚ
  motivo : Option String
  loja : Option String
  ingestion_ts : ℕ
deriving DecidableEq

/-- The full transformed row before the `df[cols_final]` projection: it still
carries the `flag_inconsistencia` column (`none` when the source table had no
`qtd_dif` column, so the column was never created). -/
structure TRow where
  dt_inventario : DayDate
  id : Option String
  item_id : Option String
  descricao : Option String
  status : Option String
  qtd_erp : ℚ
  qtd_wms : ℚ
  qtd_dif : ℚ
  valor_dif : Option ℚ
  motivo : Option String
  loja : Option String
  ingestion_ts : ℕ
  flag_inconsistencia : Option Bool
deriving DecidableEq

/-- One row of `transform`'s body in `invent2.py`, lines 137-172: coerce
`qtd_erp`/`qtd_wms` with missing→0, recompute the difference, compare a
source-provided difference at 2 decimals (pandas: `NaN.round(2)` is `NaN`, and
`NaN != x` elementwise is `True`, hence the `none => true` branch), fill the
optional text columns, stamp `loja` and the ingestion timestamp. -/
def transformRow (t : RawTable) (dtInv : DayDate) (loja : Option String)
    (ts : ℕ) (r : RawRow) : TRow :=
  let erp := toNum0 r.qtd_erp
  let wms := toNum0 r.qtd_wms
  let calcDif := wms - erp
  { dt_inventario := dtInv
    id := if t.hasId then some r.id else none
    item_id := some r.item_id
    descricao := if t.hasDescricao then r.descricao else none
    status := if t.hasStatus then r.status else none
    qtd_erp := erp
    qtd_wms := wms
    qtd_dif := calcDif
    valor_dif := if t.hasValorDif then pyToNumeric r.valor_dif else none
    motivo := if t.hasMotivo then r.motivo else none
    loja := loja
    ingestion_ts := ts
    flag_inconsistencia :=
      if t.hasDif then
        some (match pyToNumeric r.qtd_dif with
              | none => true
              | some v => decide (round2 v ≠ round2 calcDif))
      else none }

/-- The `df[cols_final]` projection at the end of `transform`. -/
def projectRow (r : TRow) : InvRow :=
  { dt_inventario := r.dt_inventario, id := r.id, item_id := r.item_id,
    descricao := r.descricao, status := r.status, qtd_erp := r.qtd_erp,
    qtd_wms := r.qtd_wms, qtd_dif := r.qtd_dif, valor_dif := r.valor_dif,
    motivo := r.motivo, loja := r.loja, ingestion_ts := r.ingestion_ts }

/-- The two ways `transform` can fail on a table: the explicit required-column
`ValueError` (the spec's `SchemaError`), raised with the missing fields and the
available columns; and the pandas `KeyError` from `df[cols_final]` when the
table has no `item_id` column. -/
inductive TransformErr where
  | schema (missing available : List String)
  | keyErr (col : String)
deriving DecidableEq

/-- `missing = [c for c in ["qtd_erp", "qtd_wms"] if c not in df.columns]`. -/
def missingRequired (t : RawTable) : List String :=
  (if t.hasErp then [] else ["qtd_erp"]) ++ (if t.hasWms then [] else ["qtd_wms"])

/-- `transform(df, dt_inv, loja)` of `invent2.py`: validate the required
columns first (raising with the missing list and the available columns),
transform every row, and project to the canonical columns (which raises a
`KeyError` when `item_id` is absent, since that column is never filled in). -/
def transform (t : RawTable) (dtInv : DayDate) (loja : Option String)
    (ts : ℕ) : Except TransformErr (List InvRow) :=
  if missingRequired t ≠ [] then
    .error (.schema (missingRequired t) (availableCols t))
  else if t.hasItem then
    .ok (t.rows.map (fun r => projectRow (transformRow t dtInv loja ts r)))
  else .error (.keyErr "item_id")

/-- The per-file loop of `run_pipeline`: each file is transformed inside a
`try/except`, a failing file is logged and skipped, the successful frames are
collected in order. -/
def collectFrames (inputs : List (RawTable × DayDate × Option String × ℕ)) :
    List (List InvRow) :=
  inputs.filterMap (fun q => (transform q.1 q.2.1 q.2.2.1 q.2.2.2).toOption)

/-! ## Merge, dedup, window, metrics (`run_pipeline`, `invent2.py`) -/

/-- Comparison by the `ingestion_ts` column (`sort_values("ingestion_ts")`). -/
def tsLe (a b : InvRow) : Prop :=
  a.ingestion_ts ≤ b.ingestion_ts

instance : DecidableRel tsLe :=
  fun a b => Nat.decLe a.ingestion_ts b.ingestion_ts

instance : IsTotal InvRow tsLe :=
  ⟨fun a b => Nat.le_total a.ingestion_ts b.ingestion_ts⟩

instance : IsTrans InvRow tsLe :=
  ⟨fun _ _ _ h1 h2 => Nat.le_trans h1 h2⟩

/-- The dedup key `["dt_inventario", "loja", "item_id"]`, extended with `"id"`
when that column is present in the merged frame (`drop_duplicates` treats two
`NaN` key cells as equal, matching `none = none` here). -/
def dedupKey (hasId : Bool) (r : InvRow) :
    DayDate × Option String × Option String × Option String :=
  (r.dt_inventario, if hasId then r.id else none, r.loja, r.item_id)

/-- `df.drop_duplicates(subset, keep="last")`: keep a row iff no later row has
the same key. -/
def dropDupKeepLast {α κ : Type} [DecidableEq κ] (key : α → κ) :
    List α → List α
  | [] => []
  | x :: xs =>
      if ∃ y ∈ xs, key y = key x then dropDupKeepLast key xs
      else x :: dropDupKeepLast key xs

/-- `pd.concat([hist, df]).sort_values("ingestion_ts").drop_duplicates(subset,
keep="last")` — the merge-and-dedup stage of `run_pipeline`. -/
def mergeDedup (hasId : Bool) (hist new : List InvRow) : List InvRow :=
  dropDupKeepLast (dedupKey hasId) (List.insertionSort tsLe (hist ++ new))

/-- The 12-month window of `run_pipeline`: `cutoff = pd.Timestamp.now()
.normalize() - pd.DateOffset(months=12); df_all[df_all["dt_inventario"] >=
cutoff]`.  The wall-clock run date (already normalized) is the `now`
parameter. -/
def windowFilter (now : DayDate) (rows : List InvRow) : List InvRow :=
  rows.filter (fun r => decide (dateLe (subMonths now 12) r.dt_inventario))

/-- `df[date_col].max()` (junk value on an empty frame, never used there). -/
def maxDateOf (rows : List InvRow) : DayDate :=
  match rows with
  | [] => ⟨0, 1, 1⟩
  | x :: xs =>
      xs.foldl
        (fun acc r =>
          if acc.num < r.dt_inventario.num then r.dt_inventario else acc)
        x.dt_inventario

/-- `filter_last_months` of `src/core/transform.py` (instantiated at the
`dt_inventario` date column): empty in, empty out; otherwise the reference is
the dataset's own maximum date and the cutoff is `ref - DateOffset(months)`. -/
def filter_last_months (rows : List InvRow) (months : ℕ) : List InvRow :=
  if rows.isEmpty then rows
  else
    rows.filter (fun r =>
      decide (dateLe (subMonths (maxDateOf rows) months) r.dt_inventario))

/-- A final row after the metrics pass: the merged record plus the two derived
columns. -/
structure MetricRow where
  base : InvRow
  dif_abs : ℚ
  acuracia : Option ℚ
deriving DecidableEq

/-- `Series.clip(lower=0, upper=1)` on one value. -/
def clampQ (x : ℚ) : ℚ :=
  min 1 (max 0 x)

/-- The metrics pass of `run_pipeline`: `dif_abs = qtd_dif.abs()`, `acuracia =
(1 - dif_abs / qtd_wms.replace({0: pd.NA})).clip(0, 1)`; a zero `qtd_wms` is
replaced by `NA`, division and clipping propagate it. -/
def computeMetrics (r : InvRow) : MetricRow :=
  { base := r
    dif_abs := |r.qtd_dif|
    acuracia :=
      if r.qtd_wms = 0 then none
      else some (clampQ (1 - |r.qtd_dif| / r.qtd_wms)) }

/-- The final consolidated table of `run_pipeline`: merge-and-dedup, then the
12-month window, then the metrics columns. -/
def finalTable (hasId : Bool) (now : DayDate) (hist new : List InvRow) :
    List MetricRow :=
  (windowFilter now (mergeDedup hasId hist new)).map computeMetrics

/-! ## Locale-aware numeric coercion (`smart_to_float`, `src/core/transform.py`) -/

/-- `str.replace(".", "")`: drop every dot (thousands separators). -/
def stripDots (cs : List Char) : List Char :=
  cs.filter (fun c => c ≠ '.')

/-- `str.replace(",", ".")`: every comma becomes a decimal point. -/
def commaToDot (cs : List Char) : List Char :=
  cs.map (fun c => if c = ',' then '.' else c)

/-- The separator rewriting of `smart_to_float`: with both `.` and `,` present
drop the dots and turn the comma into the decimal point; with only `,` present
turn it into the decimal point. -/
def localeNormalize (cs : List Char) : List Char :=
  if cs.contains '.' && cs.contains ',' then commaToDot (stripDots cs)
  else if cs.contains ',' then commaToDot cs
  else cs

/-- `smart_to_float` of `src/core/transform.py` on one cell: `astype(str)
.str.strip()`, the `{"": None, "None": None, "nan": None, "NaN": None}`
replacement, the separator masks, then `pd.to_numeric(errors="coerce")`. -/
def smart_to_float (s : String) : Option ℚ :=
  if pyStrip s = "" ∨ pyStrip s = "None" ∨ pyStrip s = "nan" ∨ pyStrip s = "NaN"
  then none
  else parseDecToQ (localeNormalize (pyStrip s).data)

/-- The separator rule exactly as the spec words it, for comparison with the
code's `localeNormalize`. -/
def specSeparatorRule (cs : List Char) : List Char :=
  if cs.contains '.' && cs.contains ',' then commaToDot (stripDots cs)
  else if cs.contains ',' then commaToDot cs
  else cs

/-- Numeric coercion as the spec words it: strip, apply the separator rule,
parse as a number, unparseable or empty text yielding null. -/
def specNumericCoercion (s : String) : Option ℚ :=
  parseDecToQ (specSeparatorRule (pyStrip s).data)

/-! ## Output boundary (`src/core/output.py`) -/

/-- Whether an `Except` is a success. -/
def exceptOk {ε α : Type} : Except ε α → Bool
  | .ok _ => true
  | .error _ => false

/-- `write_csv_local` of `src/core/output.py`: raise `ValueError` on an empty
dataframe, otherwise write the CSV (the file system is abstracted away; the
observable result is the table written). -/
def write_csv_local (df : List MetricRow) : Except String (List MetricRow) :=
  if df.isEmpty then .error "[OUTPUT] DataFrame vazio - abortando escrita do CSV"
  else .ok df

/-- `update_google_sheet` of `src/core/output.py`: raise `ValueError` on an
empty dataframe, then on a blank sheet name, then on a blank spreadsheet id;
otherwise clear and rewrite the sheet (the network call is abstracted away). -/
def update_google_sheet (df : List MetricRow) (spreadsheet_id sheet_name : String) :
    Except String Unit :=
  if df.isEmpty then .error "[OUTPUT] DataFrame vazio - abortando update da Sheet"
  else if pyStrip sheet_name = "" then .error "[OUTPUT] Nome da aba vazio"
  else if pyStrip spreadsheet_id = "" then .error "[OUTPUT] ID da planilha vazio"
  else .ok ()

/-! ## Concrete example data used by witnesses and counterexamples -/

/-- A raw row whose source-provided difference (`"999"`) disagrees with the
recomputed one, and whose `qtd_erp` text is unparseable. -/
def exRaw1 : RawRow :=
  { id := "7", item_id := "A", descricao := none, status := none,
    motivo := none, qtd_erp := "abc", qtd_wms := "5", qtd_dif := "999",
    valor_dif := "" }

/-- A table containing `exRaw1`, with the required columns present. -/
def exTable1 : RawTable :=
  { hasId := false, hasItem := true, hasDif := true, hasValorDif := false,
    hasStatus := false, hasDescricao := false, hasMotivo := false,
    hasErp := true, hasWms := true, extraCols := [], rows := [exRaw1] }

/-- A table with `qtd_erp` present but `qtd_wms` absent. -/
def exTableNoWms : RawTable :=
  { hasId := false, hasItem := true, hasDif := false, hasValorDif := false,
    hasStatus := false, hasDescricao := false, hasMotivo := false,
    hasErp := true, hasWms := false, extraCols := ["endereco"], rows := [] }

/-- A raw row whose `qtd_dif` cell does not parse as a number. -/
def exRawBadDif : RawRow :=
  { id := "1", item_id := "B", descricao := none, status := none,
    motivo := none, qtd_erp := "3", qtd_wms := "3", qtd_dif := "n/a",
    valor_dif := "" }

def exDate : DayDate := ⟨2025, 3, 10⟩

/-- A historical record for item `"X"` on `exDate`, ingested at time 1. -/
def exHistRow : InvRow :=
  { dt_inventario := exDate, id := none, item_id := some "X",
    descricao := none, status := none, qtd_erp := 10, qtd_wms := 8,
    qtd_dif := -2, valor_dif := none, motivo := none, loja := none,
    ingestion_ts := 1 }

/-- A new-batch record for item `"Y"` on the same `exDate`, ingested later. -/
def exNewRow : InvRow :=
  { dt_inventario := exDate, id := none, item_id := some "Y",
    descricao := none, status := none, qtd_erp := 4, qtd_wms := 4,
    qtd_dif := 0, valor_dif := none, motivo := none, loja := none,
    ingestion_ts := 2 }

/-- The same dedup key as `exHistRow` but a later ingestion timestamp. -/
def exNewRowX : InvRow :=
  { dt_inventario := exDate, id := none, item_id := some "X",
    descricao := none, status := none, qtd_erp := 10, qtd_wms := 10,
    qtd_dif := 0, valor_dif := none, motivo := none, loja := none,
    ingestion_ts := 2 }

/-- A record dated 2024-01-15, used for the window counterexample. -/
def exOldRow : InvRow :=
  { dt_inventario := ⟨2024, 1, 15⟩, id := none, item_id := some "Z",
    descricao := none, status := none, qtd_erp := 1, qtd_wms := 1,
    qtd_dif := 0, valor_dif := none, motivo := none, loja := none,
    ingestion_ts := 3 }

/-- A record with `qtd_wms = 4` and `qtd_dif = 1`, for the metrics witness. -/
def exMetricRowIn : InvRow :=
  { dt_inventario := exDate, id := none, item_id := some "M",
    descricao := none, status := none, qtd_erp := 3, qtd_wms := 4,
    qtd_dif := 1, valor_dif := none, motivo := none, loja := none,
    ingestion_ts := 5 }

/-- A record with `qtd_wms = 0`, for the metrics zero-division witness. -/
def exMetricRowZero : InvRow :=
  { dt_inventario := exDate, id := none, item_id := some "N",
    descricao := none, status := none, qtd_erp := 2, qtd_wms := 0,
    qtd_dif := -2, valor_dif := none, motivo := none, loja := none,
    ingestion_ts := 6 }

/-! ## Helper lemmas on `drop_duplicates(keep="last")` -/

theorem dropDupKeepLast_sublist {α κ : Type} [DecidableEq κ] (key : α → κ) :
    ∀ l : List α, List.Sublist (dropDupKeepLast key l) l := by
  intro l
  induction l with
  | nil => simp [dropDupKeepLast]
  | cons x xs ih =>
      rw [dropDupKeepLast]
      split
      · exact ih.cons x
      · exact ih.cons₂ x

theorem mem_of_mem_dropDupKeepLast {α κ : Type} [DecidableEq κ] {key : α → κ}
    {l : List α} {a : α} (h : a ∈ dropDupKeepLast key l) : a ∈ l :=
  (dropDupKeepLast_sublist key l).subset h

/-- The keys of the surviving rows are pairwise distinct. -/
theorem pairwise_dropDupKeepLast {α κ : Type} [DecidableEq κ] (key : α → κ) :
    ∀ l : List α, (dropDupKeepLast key l).Pairwise (fun a b => key a ≠ key b) := by
  intro l
  induction l with
  | nil => simp [dropDupKeepLast]
  | cons x xs ih =>
      rw [dropDupKeepLast]
      split
      · exact ih
      · rename_i h
        refine List.Pairwise.cons ?_ ih
        intro b hb hkey
        exact h ⟨b, mem_of_mem_dropDupKeepLast hb, hkey.symm⟩

/-- A row whose key occurs on no other row survives the dedup. -/
theorem mem_dropDupKeepLast_of_unique {α κ : Type} [DecidableEq κ] {key : α → κ}
    {l : List α} {a : α} (ha : a ∈ l)
    (huniq : ∀ b ∈ l, key b = key a → b = a) : a ∈ dropDupKeepLast key l := by
  induction l with
  | nil => cases ha
  | cons x xs ih =>
      rw [dropDupKeepLast]
      split
      · rename_i h
        rcases List.mem_cons.mp ha with rfl | hxs
        · obtain ⟨y, hy, hk⟩ := h
          have hya : y = a := huniq y (List.mem_cons_of_mem _ hy) hk
          subst hya
          exact ih hy (fun b hb hk2 => huniq b (List.mem_cons_of_mem _ hb) hk2)
        · exact ih hxs (fun b hb hk2 => huniq b (List.mem_cons_of_mem _ hb) hk2)
      · rcases List.mem_cons.mp ha with rfl | hxs
        · exact List.mem_cons_self a _
        · exact List.mem_cons_of_mem _
            (ih hxs (fun b hb hk2 => huniq b (List.mem_cons_of_mem _ hb) hk2))

/-- Every key present in the input is represented among the survivors. -/
theorem exists_rep_dropDupKeepLast {α κ : Type} [DecidableEq κ] (key : α → κ) :
    ∀ (l : List α) (a : α), a ∈ l →
      ∃ b ∈ dropDupKeepLast key l, key b = key a := by
  intro l
  induction l with
  | nil => intro a ha; cases ha
  | cons x xs ih =>
      intro a ha
      rw [dropDupKeepLast]
      split
      · rename_i h
        rcases List.mem_cons.mp ha with rfl | hxs
        · obtain ⟨y, hy, hk⟩ := h
          obtain ⟨b, hb, hkb⟩ := ih y hy
          exact ⟨b, hb, hkb.trans hk⟩
        · exact ih a hxs
      · rcases List.mem_cons.mp ha with rfl | hxs
        · exact ⟨a, List.mem_cons_self a _, rfl⟩
        · obtain ⟨b, hb, hkb⟩ := ih a hxs
          exact ⟨b, List.mem_cons_of_mem _ hb, hkb⟩

/-- On a list sorted by ingestion timestamp, a surviving row's timestamp is
maximal among all input rows with its key. -/
theorem ts_ge_of_mem_dropDupKeepLast {hid : Bool} {l : List InvRow} {a b : InvRow}
    (hs : l.Pairwise tsLe) (hmem : a ∈ dropDupKeepLast (dedupKey hid) l)
    (hb : b ∈ l) (hk : dedupKey hid b = dedupKey hid a) :
    b.ingestion_ts ≤ a.ingestion_ts := by
  induction l with
  | nil => cases hb
  | cons x xs ih =>
      have hx : ∀ y ∈ xs, tsLe x y := fun y hy => List.rel_of_pairwise_cons hs hy
      have hs' : xs.Pairwise tsLe := hs.of_cons
      rw [dropDupKeepLast] at hmem
      split at hmem
      · rcases List.mem_cons.mp hb with rfl | hbxs
        · exact hx a (mem_of_mem_dropDupKeepLast hmem)
        · exact ih hs' hmem hbxs
      · rename_i h
        rcases List.mem_cons.mp hmem with rfl | hmem'
        · rcases List.mem_cons.mp hb with rfl | hbxs
          · exact Nat.le_refl _
          · exact absurd ⟨b, hbxs, hk⟩ h
        · rcases List.mem_cons.mp hb with rfl | hbxs
          · exact hx a (mem_of_mem_dropDupKeepLast hmem')
          · exact ih hs' hmem' hbxs

/-- `clip(lower=0, upper=1)` lands in `[0, 1]`. -/
theorem clampQ_bounds (x : ℚ) : 0 ≤ clampQ x ∧ clampQ x ≤ 1 :=
  ⟨le_min zero_le_one (le_max_left 0 x), min_le_left 1 _⟩

/-! ## Claim theorems -/

/-- C1: For every raw input table, every record produced by the row
transformer has `qtd_dif` equal to `qtd_wms - qtd_erp`, where the two source
quantities are the numeric coercions of the raw cells with unparseable or
missing text coerced to 0; the source-provided difference value is never
consulted for the output difference. -/
theorem qty_diff_recomputed (t : RawTable) (dtInv : DayDate)
    (loja : Option String) (ts : ℕ) (out : List InvRow)
    (hok : transform t dtInv loja ts = .ok out) :
    ∀ r ∈ out, r.qtd_dif = r.qtd_wms - r.qtd_erp ∧
      ∃ raw ∈ t.rows, r.qtd_erp = toNum0 raw.qtd_erp ∧
        r.qtd_wms = toNum0 raw.qtd_wms ∧
        r.qtd_dif = toNum0 raw.qtd_wms - toNum0 raw.qtd_erp := by
  intro r hr
  unfold transform at hok
  split at hok
  · cases hok
  · split at hok
    · rw [Except.ok.injEq] at hok
      subst hok
      obtain ⟨raw, hraw, rfl⟩ := List.mem_map.mp hr
      exact ⟨rfl, raw, hraw, rfl, rfl, rfl⟩
    · cases hok

/-- C1 witness: on a concrete table whose source difference cell says `"999"`
and whose `qtd_erp` cell is unparseable text, the output difference is the
recomputed `5 - 0`, not the source value. -/
theorem qty_diff_recomputed_witness :
    (projectRow (transformRow exTable1 exDate none 0 exRaw1)).qtd_dif =
        (projectRow (transformRow exTable1 exDate none 0 exRaw1)).qtd_wms -
          (projectRow (transformRow exTable1 exDate none 0 exRaw1)).qtd_erp ∧
      ∃ raw ∈ exTable1.rows,
        (projectRow (transformRow exTable1 exDate none 0 exRaw1)).qtd_erp =
            toNum0 raw.qtd_erp ∧
          (projectRow (transformRow exTable1 exDate none 0 exRaw1)).qtd_wms =
            toNum0 raw.qtd_wms ∧
          (projectRow (transformRow exTable1 exDate none 0 exRaw1)).qtd_dif =
            toNum0 raw.qtd_wms - toNum0 raw.qtd_erp :=
  qty_diff_recomputed exTable1 exDate none 0
    [projectRow (transformRow exTable1 exDate none 0 exRaw1)] rfl
    (projectRow (transformRow exTable1 exDate none 0 exRaw1))
    (List.mem_singleton.mpr rfl)

/-- C6 counterexample: a table with `qtd_erp` present and only `qtd_wms`
absent is rejected with the required-column failure, so the rejection does not
happen only when both required fields are absent. -/
theorem schema_reject_counterexample :
    exTableNoWms.hasErp = true ∧
      transform exTableNoWms exDate none 0 =
        .error (.schema ["qtd_wms"] (availableCols exTableNoWms)) :=
  ⟨rfl, rfl⟩

/-- C6 (amended): `transform` fails with the required-column error — whose
detail carries exactly the missing fields among `qtd_erp`, `qtd_wms` and the
available columns — precisely when at least one (not necessarily both) of
`qtd_erp`, `qtd_wms` is absent after normalization; and a failing table is
simply skipped by the per-file loop, leaving the other files' frames
unchanged. -/
theorem schema_reject_iff_missing (t : RawTable) (dtInv : DayDate)
    (loja : Option String) (ts : ℕ) :
    (transform t dtInv loja ts =
        .error (.schema (missingRequired t) (availableCols t)) ↔
      (t.hasErp = false ∨ t.hasWms = false)) ∧
    (("qtd_erp" ∈ missingRequired t ↔ t.hasErp = false) ∧
      ("qtd_wms" ∈ missingRequired t ↔ t.hasWms = false)) ∧
    (∀ x xs, collectFrames (x :: xs) = collectFrames [x] ++ collectFrames xs) := by
  refine ⟨?_, ⟨?_, ?_⟩, ?_⟩
  · cases hi : t.hasItem <;> cases he : t.hasErp <;> cases hw : t.hasWms <;>
      simp [transform, missingRequired, he, hw, hi]
  · cases he : t.hasErp <;> cases hw : t.hasWms <;>
      simp [missingRequired, he, hw]
  · cases he : t.hasErp <;> cases hw : t.hasWms <;>
      simp [missingRequired, he, hw]
  · intro x xs
    simp only [collectFrames, List.filterMap_cons, List.filterMap_nil]
    cases (transform x.1 x.2.1 x.2.2.1 x.2.2.2).toOption <;> simp

/-- C9: in the row transformer, when the source table has a `qtd_dif` column
and a row's source difference cell does not parse as a number (numeric
coercion yields `NaN`), `flag_inconsistencia` is set to `True` for that row
(`NaN` compares unequal to the recomputed difference). -/
theorem unparseable_dif_flagged (t : RawTable) (dtInv : DayDate)
    (loja : Option String) (ts : ℕ) (r : RawRow)
    (hdif : t.hasDif = true) (hbad : pyToNumeric r.qtd_dif = none) :
    (transformRow t dtInv loja ts r).flag_inconsistencia = some true := by
  simp [transformRow, hdif, hbad]

/-- C9 witness: a concrete row whose `qtd_dif` cell is `"n/a"` gets the
inconsistency flag. -/
theorem unparseable_dif_flagged_witness :
    (transformRow exTable1 exDate none 0 exRawBadDif).flag_inconsistencia =
      some true :=
  unparseable_dif_flagged exTable1 exDate none 0 exRawBadDif rfl rfl

/-- C7: the locale-aware numeric coercion of the code agrees with the spec's
rule on every input string (both separators: dots stripped, comma becomes the
decimal point; only a comma: comma becomes the decimal point; then parse,
unparseable or empty yielding null), and on the spec's own examples
`"1.234,56"` and `"1234,56"` map to `1234.56` while `"abc"` maps to null. -/
theorem smart_to_float_spec :
    (∀ s : String, smart_to_float s = specNumericCoercion s) ∧
      smart_to_float "1.234,56" = some (123456 / 100 : ℚ) ∧
      smart_to_float "1234,56" = some (123456 / 100 : ℚ) ∧
      smart_to_float "abc" = none := by
  refine ⟨?_, by with_unfolding_all rfl, by with_unfolding_all rfl, by rfl⟩
  intro s
  unfold smart_to_float specNumericCoercion
  split
  · rename_i h
    rcases h with h | h | h | h <;> rw [h] <;> rfl
  · rfl

/-- C2: in every final merged table, no two rows share the dedup key
`(dt_inventario, loja, item_id)`, extended with the `id` column when one is
present. -/
theorem dedup_key_unique (hid : Bool) (now : DayDate) (hist new : List InvRow) :
    (finalTable hid now hist new).Pairwise
      (fun a b => dedupKey hid a.base ≠ dedupKey hid b.base) := by
  unfold finalTable windowFilter
  refine List.Pairwise.map computeMetrics (fun a b h => h) ?_
  exact ((pairwise_dropDupKeepLast (dedupKey hid) _).sublist
    (List.filter_sublist _))

/-- C3: among input rows (history concatenated with the new batch) with the
same dedup key and different ingestion timestamps, the one with the smaller
timestamp never survives the sort-then-`drop_duplicates(keep="last")` stage,
and the row whose timestamp is strictly the largest of its key group does
survive it. -/
theorem latest_ingestion_wins (hid : Bool) (hist new : List InvRow)
    (a b : InvRow) (_ha : a ∈ hist ++ new) (hb : b ∈ hist ++ new)
    (hk : dedupKey hid a = dedupKey hid b)
    (hts : a.ingestion_ts < b.ingestion_ts) :
    a ∉ mergeDedup hid hist new ∧
      ((∀ c ∈ hist ++ new, dedupKey hid c = dedupKey hid b → c ≠ b →
          c.ingestion_ts < b.ingestion_ts) →
        b ∈ mergeDedup hid hist new) := by
  have hperm := List.perm_insertionSort tsLe (hist ++ new)
  have hsorted : (List.insertionSort tsLe (hist ++ new)).Pairwise tsLe :=
    List.sorted_insertionSort tsLe (hist ++ new)
  constructor
  · intro hmem
    have hle : b.ingestion_ts ≤ a.ingestion_ts :=
      ts_ge_of_mem_dropDupKeepLast hsorted hmem (hperm.mem_iff.mpr hb) hk.symm
    omega
  · intro hmax
    obtain ⟨c, hc, hkc⟩ :=
      exists_rep_dropDupKeepLast (dedupKey hid) _ b (hperm.mem_iff.mpr hb)
    have hcin : c ∈ hist ++ new :=
      hperm.mem_iff.mp (mem_of_mem_dropDupKeepLast hc)
    by_cases hcb : c = b
    · exact hcb ▸ hc
    · have h1 : c.ingestion_ts < b.ingestion_ts := hmax c hcin hkc hcb
      have h2 : b.ingestion_ts ≤ c.ingestion_ts :=
        ts_ge_of_mem_dropDupKeepLast hsorted hc (hperm.mem_iff.mpr hb) hkc.symm
      omega

/-- C3 witness: with a history row and a new row sharing the dedup key, the
earlier-ingested history row is dropped and the later-ingested new row
survives. -/
theorem latest_ingestion_wins_witness :
    exHistRow ∉ mergeDedup false [exHistRow] [exNewRowX] ∧
      exNewRowX ∈ mergeDedup false [exHistRow] [exNewRowX] := by
  have h := latest_ingestion_wins false [exHistRow] [exNewRowX] exHistRow
    exNewRowX (by with_unfolding_all decide) (by with_unfolding_all decide)
    (by with_unfolding_all decide) (by with_unfolding_all decide)
  exact ⟨h.1, h.2 (by with_unfolding_all decide)⟩

/-- C5 counterexample: the merge performs no date-based discard of history.
With a history record for item `"X"` and a new-batch record for item `"Y"` on
the same `dt_inventario`, the history record survives the merge alongside the
new batch's record for that date, contradicting the claim that every history
record whose date occurs in the new batch is discarded. -/
theorem history_date_discard_counterexample :
    exHistRow.dt_inventario = exNewRow.dt_inventario ∧
      exHistRow ∈ mergeDedup false [exHistRow] [exNewRow] ∧
      exNewRow ∈ mergeDedup false [exHistRow] [exNewRow] := by
  with_unfolding_all decide

/-- C5 (amended): the merge stage does not filter history by `dt_inventario`;
history and the new batch are concatenated as they are, and conflicts are
resolved only by the key-based latest-ingested-wins dedup, so a history record
whose dedup key occurs on no other combined input row always survives the
merge — even when its date is present in the new batch. -/
theorem history_survives_merge (hid : Bool) (hist new : List InvRow)
    (r : InvRow) (hr : r ∈ hist)
    (huniq : ∀ c ∈ hist ++ new, dedupKey hid c = dedupKey hid r → c = r) :
    r ∈ mergeDedup hid hist new := by
  have hperm := List.perm_insertionSort tsLe (hist ++ new)
  apply mem_dropDupKeepLast_of_unique
  · exact hperm.mem_iff.mpr (List.mem_append_left _ hr)
  · intro b hb hk
    exact huniq b (hperm.mem_iff.mp hb) hk

/-- C5 amended-claim witness: the concrete history row of the counterexample,
whose key is unique, survives the merge. -/
theorem history_survives_merge_witness :
    exHistRow ∈ mergeDedup false [exHistRow] [exNewRow] :=
  history_survives_merge false [exHistRow] [exNewRow] exHistRow
    (by with_unfolding_all decide) (by with_unfolding_all decide)

/-- C4 counterexample: the merge stage's 12-month window is anchored at the
wall-clock run date, not at the data's own maximum `dt_inventario`.  A lone
record dated 2024-01-15 satisfies the claim's retention condition (it is
trivially within 12 months of the maximum date of the set), yet with run date
2026-01-01 the final table is empty, while with run date 2024-06-01 the same
record is kept — the outcome depends on the wall clock. -/
theorem window_wall_clock_counterexample :
    dateLe (subMonths (maxDateOf [exOldRow]) 12) exOldRow.dt_inventario ∧
      finalTable false ⟨2026, 1, 1⟩ [] [exOldRow] = [] ∧
      windowFilter ⟨2026, 1, 1⟩ [exOldRow] = [] ∧
      windowFilter ⟨2024, 6, 1⟩ [exOldRow] = [exOldRow] := by
  with_unfolding_all decide

/-- C4 (amended): the merge stage of `run_pipeline` keeps exactly the rows
with `dt_inventario ≥ now.normalize() - 12 months` where `now` is the
wall-clock run date — the lower bound inclusive — and the data-max-anchored
inclusive window described by the claim is the one implemented by
`filter_last_months` in `src/core/transform.py`, which keeps exactly the rows
with `dt_inventario ≥ max(dt_inventario) - 12 months`. -/
theorem window_characterization (now : DayDate) (rows : List InvRow)
    (r : InvRow) :
    (r ∈ windowFilter now rows ↔
        r ∈ rows ∧ dateLe (subMonths now 12) r.dt_inventario) ∧
      (r ∈ filter_last_months rows 12 ↔
        r ∈ rows ∧ dateLe (subMonths (maxDateOf rows) 12) r.dt_inventario) := by
  constructor
  · simp [windowFilter, List.mem_filter]
  · unfold filter_last_months
    split
    · rename_i h
      rw [List.isEmpty_iff] at h
      subst h
      simp
    · simp [List.mem_filter]

/-- C8: after the post-merge metrics pass, every final row has
`dif_abs = |qtd_dif|`; a row with `qtd_wms = 0` has null `acuracia` (not an
exception and not zero); a row with `qtd_wms ≠ 0` has
`acuracia = clip(1 - dif_abs / qtd_wms, 0, 1)`; and any non-null `acuracia`
lies in `[0, 1]`. -/
theorem accuracy_metrics (hid : Bool) (now : DayDate) (hist new : List InvRow)
    (m : MetricRow) (hm : m ∈ finalTable hid now hist new) :
    m.dif_abs = |m.base.qtd_dif| ∧
      (m.base.qtd_wms = 0 → m.acuracia = none) ∧
      (m.base.qtd_wms ≠ 0 →
        m.acuracia = some (clampQ (1 - m.dif_abs / m.base.qtd_wms))) ∧
      (∀ a, m.acuracia = some a → 0 ≤ a ∧ a ≤ 1) := by
  unfold finalTable at hm
  obtain ⟨r, _, rfl⟩ := List.mem_map.mp hm
  refine ⟨rfl, ?_, ?_, ?_⟩
  · intro h0
    simp only [computeMetrics] at h0
    simp [computeMetrics, h0]
  · intro hne
    simp only [computeMetrics] at hne
    simp [computeMetrics, hne]
  · intro a ha
    simp only [computeMetrics] at ha
    split at ha
    · cases ha
    · rw [Option.some.injEq] at ha
      subst ha
      exact clampQ_bounds _

/-- C8 witness: concretely, a merged row with `qtd_wms = 4`, `qtd_dif = 1`
gets `acuracia = clip(1 - 1/4, 0, 1)`, and a merged row with `qtd_wms = 0`
gets null `acuracia`. -/
theorem accuracy_metrics_witness :
    (computeMetrics exMetricRowIn).acuracia =
        some (clampQ (1 - (computeMetrics exMetricRowIn).dif_abs /
          exMetricRowIn.qtd_wms)) ∧
      (computeMetrics exMetricRowZero).acuracia = none := by
  constructor
  · exact ((accuracy_metrics false exDate [] [exMetricRowIn]
      (computeMetrics exMetricRowIn) (by with_unfolding_all decide)).2.2.1
      (by with_unfolding_all decide))
  · exact ((accuracy_metrics false exDate [] [exMetricRowZero]
      (computeMetrics exMetricRowZero) (by with_unfolding_all decide)).2.1
      (by with_unfolding_all decide))

/-- C10: both output writers reject an empty final table: `write_csv_local`
succeeds exactly on a nonempty dataframe, and `update_google_sheet` succeeds
exactly on a nonempty dataframe with non-blank sheet name and spreadsheet id —
so a run whose merge produces zero rows can persist nothing at the output
boundary. -/
theorem empty_output_rejected (df : List MetricRow)
    (spreadsheet_id sheet_name : String) :
    exceptOk (write_csv_local df) = !df.isEmpty ∧
      exceptOk (update_google_sheet df spreadsheet_id sheet_name) =
        (!df.isEmpty && !(pyStrip sheet_name == "") &&
          !(pyStrip spreadsheet_id == "")) := by
  constructor
  · cases h : df.isEmpty <;> simp [write_csv_local, exceptOk, h]
  · cases h1 : df.isEmpty <;>
      cases h2 : pyStrip sheet_name == "" <;>
      cases h3 : pyStrip spreadsheet_id == "" <;>
      simp_all [update_google_sheet, exceptOk]

end InventarioBVP
